import Mathlib

/-!
Shallow embedding of the BeeLive alert engine
(src/alerts/alert-engine.service.ts and src/alerts/alerts.constants.ts).

Modelling conventions:
* Sensor values and thresholds are rationals (the source uses JS doubles;
  every claim is about order comparisons and exact constants, for which ℚ is
  the faithful total-order model).
* Timestamps are integers counting milliseconds (JS Date.getTime()).
* The wall clock Date.now() is passed in explicitly as `now`; the engine
  never reads it twice with different results inside one transition, so one
  parameter per call is faithful.
* The durable audit write (db.insert into eventLogs) can fail; its outcome
  is an explicit boolean parameter `writeOk`.  In the source the
  eventEmitter.emit call sits inside the same try block, textually after the
  awaited insert, so the publish happens exactly when the insert succeeded;
  the catch block only logs.  A produced `Emission` records the transition
  together with the sink outcome: `logged` (insert succeeded) and
  `published` (emit reached).  The state mutation happens before the try
  block and is never rolled back.
* The AlertState field debounceTimer of the source is omitted: no code path
  ever arms it (there is no setTimeout call), it is only ever cleared, so it
  is constantly null.
* The per-kind checks run under Promise.all but touch disjoint state (each
  kind's AlertState entry; only the weight check touches the weight
  tracker), so sequential composition in dispatch order is an equivalent
  embedding.
-/

/-- Direction of a transition: enter-alarm or exit-alarm. -/
inductive Direction : Type
  | TRIGGERED : Direction
  | CLEARED : Direction
deriving DecidableEq, Repr

/-- AlertType enum of the source: the ten alert kinds. -/
inductive AlertType : Type
  | TEMP_HIGH | TEMP_LOW
  | HUMIDITY_HIGH | HUMIDITY_LOW
  | WEIGHT_DROP
  | SOUND_ANOMALY
  | CO2_HIGH
  | SWARM_RISK
  | BATTERY_LOW
  | HONEY_GAIN_LOW
deriving DecidableEq, Repr

/-- AlertState of the source (debounceTimer omitted, see header). -/
structure AlertState : Type where
  isActive : Bool
  lastTriggeredAt : Option ℤ
  lastClearedAt : Option ℤ
  lastValue : Option ℚ
deriving DecidableEq, Repr

/-- Initial per-kind state installed by the service constructor. -/
def freshAlertState : AlertState :=
  { isActive := false, lastTriggeredAt := none, lastClearedAt := none, lastValue := none }

/-- ALERT_DEBOUNCE_MS of alerts.constants.ts: 5 minutes in milliseconds. -/
def ALERT_DEBOUNCE_MS : ℤ := 5 * 60 * 1000

/-- ALERT_HYSTERESIS_PERCENT of alerts.constants.ts: 5%. -/
def ALERT_HYSTERESIS_PERCENT : ℚ := 5 / 100

/-- Thresholds row (thresholds.schema.ts) as cached by loadThresholds. -/
structure Thresholds : Type where
  tempMin : ℚ
  tempMax : ℚ
  humidityMin : ℚ
  humidityMax : ℚ
  maxWeightDropPerHourKg : ℚ
  soundMin : ℚ
  soundMax : ℚ
  co2Max : ℚ
  minDailyHoneyGainG : ℚ
  swarmRiskMax : ℚ
  batteryMin : ℚ
deriving DecidableEq, Repr

/-- Telemetry reading (telemetry.schema.ts) as consumed by the engine.
dailyHoneyGainG is nullable in the schema and checked for null/undefined. -/
structure Telemetry : Type where
  recordedAt : ℤ
  temperature : ℚ
  humidity : ℚ
  weightKg : ℚ
  soundDb : ℚ
  co2Ppm : ℚ
  dailyHoneyGainG : Option ℚ
  swarmRisk : ℚ
  batteryPercent : ℚ
deriving DecidableEq, Repr

/-- A transition produced by the engine (the state flip committed in
triggerAlert / clearAlert), together with the sink outcome: `logged` is the
success of the eventLogs insert, `published` records whether the
eventEmitter.emit call was reached (in the source it is reached exactly when
the insert succeeded, both being inside one try block, emit after insert). -/
structure Emission : Type where
  type : AlertType
  direction : Direction
  value : ℚ
  timestamp : ℤ
  logged : Bool
  published : Bool
deriving DecidableEq, Repr

/-- State mutation and sink effect of the non-debounced tail of triggerAlert:
isActive := true, lastTriggeredAt := now, lastValue := value, then the
try-block write and (on success) publish. -/
def triggerCommit (now : ℤ) (writeOk : Bool) (ty : AlertType) (value : ℚ)
    (state : AlertState) : AlertState × Option Emission :=
  ({ state with isActive := true, lastTriggeredAt := some now, lastValue := some value },
   some { type := ty, direction := Direction.TRIGGERED, value := value, timestamp := now,
          logged := writeOk, published := writeOk })

/-- triggerAlert of the source: debounce against lastTriggeredAt, then commit. -/
def triggerAlert (now : ℤ) (writeOk : Bool) (ty : AlertType) (value : ℚ)
    (state : AlertState) : AlertState × Option Emission :=
  match state.lastTriggeredAt with
  | some t =>
      if now - t < ALERT_DEBOUNCE_MS then (state, none)
      else triggerCommit now writeOk ty value state
  | none => triggerCommit now writeOk ty value state

/-- State mutation and sink effect of the non-debounced tail of clearAlert. -/
def clearCommit (now : ℤ) (writeOk : Bool) (ty : AlertType) (value : ℚ)
    (state : AlertState) : AlertState × Option Emission :=
  ({ state with isActive := false, lastClearedAt := some now, lastValue := some value },
   some { type := ty, direction := Direction.CLEARED, value := value, timestamp := now,
          logged := writeOk, published := writeOk })

/-- clearAlert of the source: return if inactive, debounce against
lastClearedAt, then commit. -/
def clearAlert (now : ℤ) (writeOk : Bool) (ty : AlertType) (value : ℚ)
    (state : AlertState) : AlertState × Option Emission :=
  if state.isActive = false then (state, none)
  else
    match state.lastClearedAt with
    | some t =>
        if now - t < ALERT_DEBOUNCE_MS then (state, none)
        else clearCommit now writeOk ty value state
    | none => clearCommit now writeOk ty value state

/-- Shared shape of every per-kind check in the source (the §4.2 primitive):
trigger when the trigger condition holds and the state is inactive, else
clear when the clear condition holds and the state is active, else leave the
state alone. -/
def evalBranch (trigCond clearCond : Prop) [Decidable trigCond] [Decidable clearCond]
    (now : ℤ) (writeOk : Bool) (ty : AlertType) (value : ℚ)
    (state : AlertState) : AlertState × Option Emission :=
  if trigCond ∧ state.isActive = false then triggerAlert now writeOk ty value state
  else if clearCond ∧ state.isActive = true then clearAlert now writeOk ty value state
  else (state, none)

/-- checkTemperatureAlerts of the source: TEMP_HIGH (bad above tempMax) and
TEMP_LOW (bad below tempMin), each with the 5% hysteresis band. -/
def checkTemperatureAlerts (th : Thresholds) (now : ℤ) (writeOk : AlertType → Bool)
    (data : Telemetry) (states : AlertType → AlertState) :
    (AlertType → AlertState) × List Emission :=
  let temp := data.temperature
  let highThreshold := th.tempMax
  let highClearThreshold := highThreshold * (1 - ALERT_HYSTERESIS_PERCENT)
  let r1 := evalBranch (highThreshold < temp) (temp < highClearThreshold)
      now (writeOk AlertType.TEMP_HIGH) AlertType.TEMP_HIGH temp (states AlertType.TEMP_HIGH)
  let lowThreshold := th.tempMin
  let lowClearThreshold := lowThreshold * (1 + ALERT_HYSTERESIS_PERCENT)
  let r2 := evalBranch (temp < lowThreshold) (lowClearThreshold < temp)
      now (writeOk AlertType.TEMP_LOW) AlertType.TEMP_LOW temp (states AlertType.TEMP_LOW)
  (Function.update (Function.update states AlertType.TEMP_HIGH r1.1) AlertType.TEMP_LOW r2.1,
   r1.2.toList ++ r2.2.toList)

/-- checkHumidityAlerts of the source: HUMIDITY_HIGH and HUMIDITY_LOW. -/
def checkHumidityAlerts (th : Thresholds) (now : ℤ) (writeOk : AlertType → Bool)
    (data : Telemetry) (states : AlertType → AlertState) :
    (AlertType → AlertState) × List Emission :=
  let humidity := data.humidity
  let highThreshold := th.humidityMax
  let highClearThreshold := highThreshold * (1 - ALERT_HYSTERESIS_PERCENT)
  let r1 := evalBranch (highThreshold < humidity) (humidity < highClearThreshold)
      now (writeOk AlertType.HUMIDITY_HIGH) AlertType.HUMIDITY_HIGH humidity
      (states AlertType.HUMIDITY_HIGH)
  let lowThreshold := th.humidityMin
  let lowClearThreshold := lowThreshold * (1 + ALERT_HYSTERESIS_PERCENT)
  let r2 := evalBranch (humidity < lowThreshold) (lowClearThreshold < humidity)
      now (writeOk AlertType.HUMIDITY_LOW) AlertType.HUMIDITY_LOW humidity
      (states AlertType.HUMIDITY_LOW)
  (Function.update (Function.update states AlertType.HUMIDITY_HIGH r1.1)
     AlertType.HUMIDITY_LOW r2.1,
   r1.2.toList ++ r2.2.toList)

/-- checkWeightAlerts of the source: derivative check against the previous
tracked weight/time; evaluates only when 0 < Δt ≤ 1 hour and the weight
decreased; the clear comparison is non-strict (dropPerHour ≤ clearThreshold)
in the source.  Returns the updated states and emissions together with the
new tracker slots, which are overwritten unconditionally. -/
def checkWeightAlerts (th : Thresholds) (now : ℤ) (writeOk : AlertType → Bool)
    (data : Telemetry) (states : AlertType → AlertState)
    (lastWeight : Option ℚ) (lastWeightTime : Option ℤ) :
    ((AlertType → AlertState) × List Emission) × Option ℚ × Option ℤ :=
  let currentWeight := data.weightKg
  let currentTime := data.recordedAt
  let core :=
    match lastWeight, lastWeightTime with
    | some lw, some lt =>
        let timeDiffMs := currentTime - lt
        let timeDiffHours : ℚ := (timeDiffMs : ℚ) / (1000 * 60 * 60)
        let weightDiff := lw - currentWeight
        if 0 < timeDiffHours ∧ timeDiffHours ≤ 1 ∧ 0 < weightDiff then
          let dropPerHour := weightDiff / timeDiffHours
          let threshold := th.maxWeightDropPerHourKg
          let clearThreshold := threshold * (1 - ALERT_HYSTERESIS_PERCENT)
          let r := evalBranch (threshold < dropPerHour) (dropPerHour ≤ clearThreshold)
              now (writeOk AlertType.WEIGHT_DROP) AlertType.WEIGHT_DROP dropPerHour
              (states AlertType.WEIGHT_DROP)
          (Function.update states AlertType.WEIGHT_DROP r.1, r.2.toList)
        else (states, ([] : List Emission))
    | _, _ => (states, ([] : List Emission))
  (core, some currentWeight, some currentTime)

/-- checkSoundAlerts of the source: SOUND_ANOMALY, out of range either way
triggers, back inside both inner bounds clears. -/
def checkSoundAlerts (th : Thresholds) (now : ℤ) (writeOk : AlertType → Bool)
    (data : Telemetry) (states : AlertType → AlertState) :
    (AlertType → AlertState) × List Emission :=
  let sound := data.soundDb
  let maxThreshold := th.soundMax
  let minThreshold := th.soundMin
  let maxClearThreshold := maxThreshold * (1 - ALERT_HYSTERESIS_PERCENT)
  let minClearThreshold := minThreshold * (1 + ALERT_HYSTERESIS_PERCENT)
  let isAnomaly := maxThreshold < sound ∨ sound < minThreshold
  let isNormal := sound ≤ maxClearThreshold ∧ minClearThreshold ≤ sound
  let r := evalBranch isAnomaly isNormal
      now (writeOk AlertType.SOUND_ANOMALY) AlertType.SOUND_ANOMALY sound
      (states AlertType.SOUND_ANOMALY)
  (Function.update states AlertType.SOUND_ANOMALY r.1, r.2.toList)

/-- checkCo2Alerts of the source: CO2_HIGH, bad above co2Max. -/
def checkCo2Alerts (th : Thresholds) (now : ℤ) (writeOk : AlertType → Bool)
    (data : Telemetry) (states : AlertType → AlertState) :
    (AlertType → AlertState) × List Emission :=
  let co2 := data.co2Ppm
  let threshold := th.co2Max
  let clearThreshold := threshold * (1 - ALERT_HYSTERESIS_PERCENT)
  let r := evalBranch (threshold < co2) (co2 < clearThreshold)
      now (writeOk AlertType.CO2_HIGH) AlertType.CO2_HIGH co2 (states AlertType.CO2_HIGH)
  (Function.update states AlertType.CO2_HIGH r.1, r.2.toList)

/-- checkSwarmRiskAlerts of the source: SWARM_RISK, bad above swarmRiskMax. -/
def checkSwarmRiskAlerts (th : Thresholds) (now : ℤ) (writeOk : AlertType → Bool)
    (data : Telemetry) (states : AlertType → AlertState) :
    (AlertType → AlertState) × List Emission :=
  let swarmRisk := data.swarmRisk
  let threshold := th.swarmRiskMax
  let clearThreshold := threshold * (1 - ALERT_HYSTERESIS_PERCENT)
  let r := evalBranch (threshold < swarmRisk) (swarmRisk < clearThreshold)
      now (writeOk AlertType.SWARM_RISK) AlertType.SWARM_RISK swarmRisk
      (states AlertType.SWARM_RISK)
  (Function.update states AlertType.SWARM_RISK r.1, r.2.toList)

/-- checkBatteryAlerts of the source: BATTERY_LOW, bad below batteryMin. -/
def checkBatteryAlerts (th : Thresholds) (now : ℤ) (writeOk : AlertType → Bool)
    (data : Telemetry) (states : AlertType → AlertState) :
    (AlertType → AlertState) × List Emission :=
  let battery := data.batteryPercent
  let threshold := th.batteryMin
  let clearThreshold := threshold * (1 + ALERT_HYSTERESIS_PERCENT)
  let r := evalBranch (battery < threshold) (clearThreshold < battery)
      now (writeOk AlertType.BATTERY_LOW) AlertType.BATTERY_LOW battery
      (states AlertType.BATTERY_LOW)
  (Function.update states AlertType.BATTERY_LOW r.1, r.2.toList)

/-- checkHoneyGainAlerts of the source: HONEY_GAIN_LOW, bad below
minDailyHoneyGainG; returns immediately when dailyHoneyGainG is
null/undefined. -/
def checkHoneyGainAlerts (th : Thresholds) (now : ℤ) (writeOk : AlertType → Bool)
    (data : Telemetry) (states : AlertType → AlertState) :
    (AlertType → AlertState) × List Emission :=
  match data.dailyHoneyGainG with
  | none => (states, [])
  | some honeyGain =>
      let threshold := th.minDailyHoneyGainG
      let clearThreshold := threshold * (1 + ALERT_HYSTERESIS_PERCENT)
      let r := evalBranch (honeyGain < threshold) (clearThreshold < honeyGain)
          now (writeOk AlertType.HONEY_GAIN_LOW) AlertType.HONEY_GAIN_LOW honeyGain
          (states AlertType.HONEY_GAIN_LOW)
      (Function.update states AlertType.HONEY_GAIN_LOW r.1, r.2.toList)

/-- Mutable fields of AlertEngineService relevant to evaluation. -/
structure EngineState : Type where
  alertStates : AlertType → AlertState
  thresholds : Option Thresholds
  lastWeight : Option ℚ
  lastWeightTime : Option ℤ

/-- Engine state right after the constructor ran: every kind fresh, no
thresholds cached, no weight tracked. -/
def initialEngineState : EngineState :=
  { alertStates := fun _ => freshAlertState,
    thresholds := none, lastWeight := none, lastWeightTime := none }

/-- handleTelemetryInsert of the source: if no thresholds are cached attempt
one reload (`reload` is the row the loadThresholds query would return on
this call); if thresholds are still absent, return without touching
anything; otherwise dispatch the eight per-kind checks.  The checks run
under Promise.all but touch disjoint state, so they are composed
sequentially in dispatch order. -/
def handleTelemetryInsert (reload : Option Thresholds) (now : ℤ)
    (writeOk : AlertType → Bool) (data : Telemetry) (es : EngineState) :
    EngineState × List Emission :=
  let es0 :=
    match es.thresholds with
    | some _ => es
    | none => { es with thresholds := reload }
  match es0.thresholds with
  | none => (es0, [])
  | some th =>
      let r1 := checkTemperatureAlerts th now writeOk data es0.alertStates
      let r2 := checkHumidityAlerts th now writeOk data r1.1
      let r3 := checkWeightAlerts th now writeOk data r2.1 es0.lastWeight es0.lastWeightTime
      let r4 := checkSoundAlerts th now writeOk data r3.1.1
      let r5 := checkCo2Alerts th now writeOk data r4.1
      let r6 := checkSwarmRiskAlerts th now writeOk data r5.1
      let r7 := checkBatteryAlerts th now writeOk data r6.1
      let r8 := checkHoneyGainAlerts th now writeOk data r7.1
      ({ alertStates := r8.1, thresholds := es0.thresholds,
         lastWeight := r3.2.1, lastWeightTime := r3.2.2 },
       r1.2 ++ r2.2 ++ r3.1.2 ++ r4.2 ++ r5.2 ++ r6.2 ++ r7.2 ++ r8.2)

/-- One ingestion event: the reload result the config query would yield on
this call, the wall-clock time, the audit-write outcome per kind, and the
reading. -/
structure StepInput : Type where
  reload : Option Thresholds
  now : ℤ
  writeOk : AlertType → Bool
  data : Telemetry

/-- A run of the engine over a list of ingestion events, concatenating the
produced transitions. -/
def runEngine : List StepInput → EngineState → EngineState × List Emission
  | [], es => (es, [])
  | step :: rest, es =>
      let r := handleTelemetryInsert step.reload step.now step.writeOk step.data es
      let r2 := runEngine rest r.1
      (r2.1, r.2 ++ r2.2)

/-- Transitions of one kind inside an emission list. -/
def kindEmissions (K : AlertType) (l : List Emission) : List Emission :=
  l.filter (fun e => decide (e.type = K))

/-!
Proof infrastructure.  `FlipSeq a l b` says that `l` is a legal sequence of
transition directions for one kind starting with `isActive = a` and ending
with `isActive = b`: a TRIGGERED is only produced from the inactive state
and activates, a CLEARED only from the active state and deactivates.
-/

/-- Legal per-kind direction sequences between two activity states. -/
inductive FlipSeq : Bool → List Direction → Bool → Prop
  | nil (a : Bool) : FlipSeq a [] a
  | trig {l : List Direction} {b : Bool} :
      FlipSeq true l b → FlipSeq false (Direction.TRIGGERED :: l) b
  | clear {l : List Direction} {b : Bool} :
      FlipSeq false l b → FlipSeq true (Direction.CLEARED :: l) b

lemma FlipSeq.append {a b c : Bool} {l1 l2 : List Direction}
    (h1 : FlipSeq a l1 b) (h2 : FlipSeq b l2 c) : FlipSeq a (l1 ++ l2) c := by
  induction h1 with
  | nil a => exact h2
  | trig h ih => exact FlipSeq.trig (ih h2)
  | clear h ih => exact FlipSeq.clear (ih h2)

lemma FlipSeq.head_of_true {l : List Direction} {b : Bool} (h : FlipSeq true l b) :
    ∀ d ∈ l.head?, d = Direction.CLEARED := by
  cases h with
  | nil => simp
  | clear h => simp

lemma FlipSeq.head_of_false {l : List Direction} {b : Bool} (h : FlipSeq false l b) :
    ∀ d ∈ l.head?, d = Direction.TRIGGERED := by
  cases h with
  | nil => simp
  | trig h => simp

lemma FlipSeq.chain' {a b : Bool} {l : List Direction} (h : FlipSeq a l b) :
    l.Chain' (fun d1 d2 => d1 ≠ d2) := by
  induction h with
  | nil a => simp
  | trig h ih =>
      refine List.chain'_cons'.mpr ⟨?_, ih⟩
      intro d hd
      rw [FlipSeq.head_of_true h d hd]
      simp
  | clear h ih =>
      refine List.chain'_cons'.mpr ⟨?_, ih⟩
      intro d hd
      rw [FlipSeq.head_of_false h d hd]
      simp

/-- Activity state reached after replaying a direction list from `a`. -/
def lastActive (a : Bool) : List Direction → Bool
  | [] => a
  | d :: l => lastActive (decide (d = Direction.TRIGGERED)) l

lemma FlipSeq.last_eq {a b : Bool} {l : List Direction} (h : FlipSeq a l b) :
    b = lastActive a l := by
  induction h with
  | nil a => rfl
  | trig h ih => simpa [lastActive] using ih
  | clear h ih => simpa [lastActive] using ih

lemma lastActive_eq_getLast (l : List Direction) : ∀ a : Bool,
    lastActive a l = l.getLast?.elim a (fun d => decide (d = Direction.TRIGGERED)) := by
  induction l with
  | nil => intro a; rfl
  | cons d l ih =>
      intro a
      cases l with
      | nil => simp [lastActive]
      | cons d2 l2 =>
          rw [List.getLast?_cons_cons]
          simpa [lastActive] using ih (decide (d = Direction.TRIGGERED))

/-- Per-kind summary of one engine call: the directions of kind K's
transitions replay the flip of kind K's activity bit. -/
def KindStep (pre post : AlertType → AlertState) (ems : List Emission) (K : AlertType) : Prop :=
  FlipSeq (pre K).isActive ((kindEmissions K ems).map Emission.direction) (post K).isActive

lemma KindStep.refl (s : AlertType → AlertState) (K : AlertType) : KindStep s s [] K :=
  FlipSeq.nil _

lemma KindStep.comp {s1 s2 s3 : AlertType → AlertState} {e1 e2 : List Emission}
    {K : AlertType} (h1 : KindStep s1 s2 e1 K) (h2 : KindStep s2 s3 e2 K) :
    KindStep s1 s3 (e1 ++ e2) K := by
  unfold KindStep kindEmissions at *
  rw [List.filter_append, List.map_append]
  exact h1.append h2

lemma triggerAlert_cases (now : ℤ) (w : Bool) (ty : AlertType) (v : ℚ) (s : AlertState) :
    triggerAlert now w ty v s = (s, none) ∨
    triggerAlert now w ty v s = triggerCommit now w ty v s := by
  unfold triggerAlert
  cases s.lastTriggeredAt with
  | none => right; rfl
  | some t =>
      by_cases h : now - t < ALERT_DEBOUNCE_MS
      · left; simp [h]
      · right; simp [h]

lemma clearAlert_cases (now : ℤ) (w : Bool) (ty : AlertType) (v : ℚ) (s : AlertState) :
    clearAlert now w ty v s = (s, none) ∨
    (s.isActive = true ∧ clearAlert now w ty v s = clearCommit now w ty v s) := by
  unfold clearAlert
  by_cases ha : s.isActive = false
  · left; simp [ha]
  · have ha' : s.isActive = true := by
      cases h : s.isActive
      · exact absurd h ha
      · rfl
    cases s.lastClearedAt with
    | none => right; exact ⟨ha', by simp [ha]⟩
    | some t =>
        by_cases h : now - t < ALERT_DEBOUNCE_MS
        · left; simp [ha, h]
        · right; exact ⟨ha', by simp [ha, h]⟩

lemma evalBranch_flipSeq (tc cc : Prop) [Decidable tc] [Decidable cc]
    (now : ℤ) (w : Bool) (ty : AlertType) (v : ℚ) (s : AlertState) :
    FlipSeq s.isActive
      ((evalBranch tc cc now w ty v s).2.toList.map Emission.direction)
      (evalBranch tc cc now w ty v s).1.isActive := by
  unfold evalBranch
  split_ifs with h1 h2
  · rcases triggerAlert_cases now w ty v s with h | h <;> rw [h]
    · exact FlipSeq.nil _
    · rw [h1.2]
      exact FlipSeq.trig (FlipSeq.nil _)
  · rcases clearAlert_cases now w ty v s with h | ⟨ha, h⟩ <;> rw [h]
    · exact FlipSeq.nil _
    · rw [ha]
      exact FlipSeq.clear (FlipSeq.nil _)
  · exact FlipSeq.nil _

lemma evalBranch_type (tc cc : Prop) [Decidable tc] [Decidable cc]
    (now : ℤ) (w : Bool) (ty : AlertType) (v : ℚ) (s : AlertState) :
    ∀ e ∈ (evalBranch tc cc now w ty v s).2.toList, e.type = ty := by
  unfold evalBranch
  split_ifs with h1 h2
  · rcases triggerAlert_cases now w ty v s with h | h <;> rw [h]
    · simp
    · simp [triggerCommit]
  · rcases clearAlert_cases now w ty v s with h | ⟨ha, h⟩ <;> rw [h]
    · simp
    · simp [clearCommit]
  · simp

lemma kindEmissions_eq_nil {K : AlertType} {l : List Emission}
    (h : ∀ e ∈ l, e.type ≠ K) : kindEmissions K l = [] := by
  unfold kindEmissions
  refine List.filter_eq_nil_iff.mpr ?_
  intro e he
  simpa using h e he

lemma kindEmissions_eq_self {K : AlertType} {l : List Emission}
    (h : ∀ e ∈ l, e.type = K) : kindEmissions K l = l := by
  unfold kindEmissions
  refine List.filter_eq_self.mpr ?_
  intro e he
  simpa using h e he

lemma kindStep_update (states : AlertType → AlertState) (ty : AlertType)
    (r : AlertState × Option Emission)
    (hflip : FlipSeq (states ty).isActive (r.2.toList.map Emission.direction) r.1.isActive)
    (hty : ∀ e ∈ r.2.toList, e.type = ty) (K : AlertType) :
    KindStep states (Function.update states ty r.1) r.2.toList K := by
  unfold KindStep
  by_cases hK : K = ty
  · subst hK
    rw [Function.update_same]
    rw [kindEmissions_eq_self hty]
    exact hflip
  · rw [Function.update_noteq hK]
    rw [kindEmissions_eq_nil (fun e he h' => hK (((hty e he).symm.trans h').symm))]
    exact FlipSeq.nil _

lemma kindStep_single (tc cc : Prop) [Decidable tc] [Decidable cc]
    (now : ℤ) (w : Bool) (ty : AlertType) (v : ℚ)
    (states : AlertType → AlertState) (K : AlertType) :
    KindStep states
      (Function.update states ty (evalBranch tc cc now w ty v (states ty)).1)
      (evalBranch tc cc now w ty v (states ty)).2.toList K :=
  kindStep_update states ty _ (evalBranch_flipSeq tc cc now w ty v (states ty))
    (evalBranch_type tc cc now w ty v (states ty)) K

lemma kindStep_double (tc1 cc1 tc2 cc2 : Prop)
    [Decidable tc1] [Decidable cc1] [Decidable tc2] [Decidable cc2]
    (now : ℤ) (w1 w2 : Bool) (ty1 ty2 : AlertType) (v1 v2 : ℚ)
    (states : AlertType → AlertState) (hne : ty2 ≠ ty1) (K : AlertType) :
    KindStep states
      (Function.update (Function.update states ty1 (evalBranch tc1 cc1 now w1 ty1 v1 (states ty1)).1)
        ty2 (evalBranch tc2 cc2 now w2 ty2 v2 (states ty2)).1)
      ((evalBranch tc1 cc1 now w1 ty1 v1 (states ty1)).2.toList ++
        (evalBranch tc2 cc2 now w2 ty2 v2 (states ty2)).2.toList) K := by
  have hA := kindStep_single tc1 cc1 now w1 ty1 v1 states K
  have hs : Function.update states ty1 (evalBranch tc1 cc1 now w1 ty1 v1 (states ty1)).1 ty2
      = states ty2 := Function.update_noteq hne _ _
  have hB := kindStep_update
    (Function.update states ty1 (evalBranch tc1 cc1 now w1 ty1 v1 (states ty1)).1) ty2
    (evalBranch tc2 cc2 now w2 ty2 v2 (states ty2))
    (by rw [hs]; exact evalBranch_flipSeq tc2 cc2 now w2 ty2 v2 (states ty2))
    (evalBranch_type tc2 cc2 now w2 ty2 v2 (states ty2)) K
  exact hA.comp hB

lemma checkTemperatureAlerts_kindStep (th : Thresholds) (now : ℤ)
    (w : AlertType → Bool) (data : Telemetry) (states : AlertType → AlertState)
    (K : AlertType) :
    KindStep states (checkTemperatureAlerts th now w data states).1
      (checkTemperatureAlerts th now w data states).2 K := by
  unfold checkTemperatureAlerts
  exact kindStep_double _ _ _ _ now _ _ _ _ _ _ states (by decide) K

lemma checkHumidityAlerts_kindStep (th : Thresholds) (now : ℤ)
    (w : AlertType → Bool) (data : Telemetry) (states : AlertType → AlertState)
    (K : AlertType) :
    KindStep states (checkHumidityAlerts th now w data states).1
      (checkHumidityAlerts th now w data states).2 K := by
  unfold checkHumidityAlerts
  exact kindStep_double _ _ _ _ now _ _ _ _ _ _ states (by decide) K

lemma checkWeightAlerts_kindStep (th : Thresholds) (now : ℤ)
    (w : AlertType → Bool) (data : Telemetry) (states : AlertType → AlertState)
    (lw : Option ℚ) (lt : Option ℤ) (K : AlertType) :
    KindStep states (checkWeightAlerts th now w data states lw lt).1.1
      (checkWeightAlerts th now w data states lw lt).1.2 K := by
  unfold checkWeightAlerts
  cases lw with
  | none => exact KindStep.refl states K
  | some lwv =>
      cases lt with
      | none => exact KindStep.refl states K
      | some ltv =>
          dsimp only
          split_ifs with h
          · exact kindStep_single _ _ now _ _ _ states K
          · exact KindStep.refl states K

lemma checkSoundAlerts_kindStep (th : Thresholds) (now : ℤ)
    (w : AlertType → Bool) (data : Telemetry) (states : AlertType → AlertState)
    (K : AlertType) :
    KindStep states (checkSoundAlerts th now w data states).1
      (checkSoundAlerts th now w data states).2 K := by
  unfold checkSoundAlerts
  exact kindStep_single _ _ now _ _ _ states K

lemma checkCo2Alerts_kindStep (th : Thresholds) (now : ℤ)
    (w : AlertType → Bool) (data : Telemetry) (states : AlertType → AlertState)
    (K : AlertType) :
    KindStep states (checkCo2Alerts th now w data states).1
      (checkCo2Alerts th now w data states).2 K := by
  unfold checkCo2Alerts
  exact kindStep_single _ _ now _ _ _ states K

lemma checkSwarmRiskAlerts_kindStep (th : Thresholds) (now : ℤ)
    (w : AlertType → Bool) (data : Telemetry) (states : AlertType → AlertState)
    (K : AlertType) :
    KindStep states (checkSwarmRiskAlerts th now w data states).1
      (checkSwarmRiskAlerts th now w data states).2 K := by
  unfold checkSwarmRiskAlerts
  exact kindStep_single _ _ now _ _ _ states K

lemma checkBatteryAlerts_kindStep (th : Thresholds) (now : ℤ)
    (w : AlertType → Bool) (data : Telemetry) (states : AlertType → AlertState)
    (K : AlertType) :
    KindStep states (checkBatteryAlerts th now w data states).1
      (checkBatteryAlerts th now w data states).2 K := by
  unfold checkBatteryAlerts
  exact kindStep_single _ _ now _ _ _ states K

lemma checkHoneyGainAlerts_kindStep (th : Thresholds) (now : ℤ)
    (w : AlertType → Bool) (data : Telemetry) (states : AlertType → AlertState)
    (K : AlertType) :
    KindStep states (checkHoneyGainAlerts th now w data states).1
      (checkHoneyGainAlerts th now w data states).2 K := by
  unfold checkHoneyGainAlerts
  cases data.dailyHoneyGainG with
  | none => exact KindStep.refl states K
  | some g => exact kindStep_single _ _ now _ _ _ states K

lemma handleTelemetryInsert_kindStep (reload : Option Thresholds) (now : ℤ)
    (w : AlertType → Bool) (data : Telemetry) (es : EngineState) (K : AlertType) :
    KindStep es.alertStates (handleTelemetryInsert reload now w data es).1.alertStates
      (handleTelemetryInsert reload now w data es).2 K := by
  unfold handleTelemetryInsert
  cases hth : es.thresholds with
  | none =>
      simp only [hth]
      cases reload with
      | none => exact KindStep.refl _ K
      | some th =>
          dsimp only
          exact (((((((checkTemperatureAlerts_kindStep th now w data _ K).comp
            (checkHumidityAlerts_kindStep th now w data _ K)).comp
            (checkWeightAlerts_kindStep th now w data _ _ _ K)).comp
            (checkSoundAlerts_kindStep th now w data _ K)).comp
            (checkCo2Alerts_kindStep th now w data _ K)).comp
            (checkSwarmRiskAlerts_kindStep th now w data _ K)).comp
            (checkBatteryAlerts_kindStep th now w data _ K)).comp
            (checkHoneyGainAlerts_kindStep th now w data _ K)
  | some th =>
      simp only [hth]
      exact (((((((checkTemperatureAlerts_kindStep th now w data _ K).comp
            (checkHumidityAlerts_kindStep th now w data _ K)).comp
            (checkWeightAlerts_kindStep th now w data _ _ _ K)).comp
            (checkSoundAlerts_kindStep th now w data _ K)).comp
            (checkCo2Alerts_kindStep th now w data _ K)).comp
            (checkSwarmRiskAlerts_kindStep th now w data _ K)).comp
            (checkBatteryAlerts_kindStep th now w data _ K)).comp
            (checkHoneyGainAlerts_kindStep th now w data _ K)

lemma runEngine_kindStep (steps : List StepInput) (es : EngineState) (K : AlertType) :
    KindStep es.alertStates (runEngine steps es).1.alertStates
      (runEngine steps es).2 K := by
  induction steps generalizing es with
  | nil => exact KindStep.refl _ K
  | cons step rest ih =>
      exact (handleTelemetryInsert_kindStep step.reload step.now step.writeOk
        step.data es K).comp (ih _)

lemma lastActive_map_direction (l : List Emission) : ∀ a : Bool,
    lastActive a (l.map Emission.direction) =
      l.getLast?.elim a (fun e => decide (e.direction = Direction.TRIGGERED)) := by
  induction l with
  | nil => intro a; rfl
  | cons e l ih =>
      intro a
      cases l with
      | nil => simp [lastActive]
      | cons e2 l2 =>
          rw [List.map_cons, List.getLast?_cons_cons]
          simpa [lastActive] using ih (decide (e.direction = Direction.TRIGGERED))

/-- C10: for every alert kind, a TRIGGERED transition is produced only from
the inactive state and activates it, a CLEARED transition only from the
active state and deactivates it; consequently, over any run of the engine
from its initial state, the transitions of one kind strictly alternate in
direction, and the kind is active at the end exactly when its last
transition was a TRIGGERED one. -/
theorem C10_same_kind_transitions_alternate (steps : List StepInput) (K : AlertType) :
    (kindEmissions K (runEngine steps initialEngineState).2).Chain'
        (fun e1 e2 => e1.direction ≠ e2.direction) ∧
    ((runEngine steps initialEngineState).1.alertStates K).isActive =
      (kindEmissions K (runEngine steps initialEngineState).2).getLast?.elim false
        (fun e => decide (e.direction = Direction.TRIGGERED)) := by
  have h := runEngine_kindStep steps initialEngineState K
  unfold KindStep at h
  have hinit : (initialEngineState.alertStates K).isActive = false := rfl
  rw [hinit] at h
  constructor
  · have hc := h.chain'
    rw [List.chain'_map] at hc
    exact hc
  · have hl := h.last_eq
    rw [lastActive_map_direction] at hl
    exact hl

lemma kindEmissions_append (K : AlertType) (l1 l2 : List Emission) :
    kindEmissions K (l1 ++ l2) = kindEmissions K l1 ++ kindEmissions K l2 := by
  unfold kindEmissions
  exact List.filter_append _ _

/-- Threshold fixture for concrete witnesses. -/
def thFixture : Thresholds :=
  { tempMin := 30, tempMax := 36, humidityMin := 40, humidityMax := 80,
    maxWeightDropPerHourKg := 1, soundMin := 30, soundMax := 90, co2Max := 4000,
    minDailyHoneyGainG := 50, swarmRiskMax := 70, batteryMin := 20 }

/-- Reading fixture for concrete witnesses: every metric inside the
thFixture bands, honey gain absent. -/
def readingFixture : Telemetry :=
  { recordedAt := 0, temperature := 33, humidity := 60, weightKg := 50, soundDb := 60,
    co2Ppm := 1000, dailyHoneyGainG := none, swarmRisk := 10, batteryPercent := 90 }

/-- C5: when a trigger for a kind is debounce-suppressed (lastTriggeredAt is
set and less than the 5-minute window old), the call leaves the kind's
state exactly as it was — isActive, lastTriggeredAt, lastClearedAt and
lastValue unchanged — and produces no transition, hence no audit-log write
is attempted and no event is published for that kind. -/
theorem C5_debounced_trigger_is_noop (now : ℤ) (w : Bool) (ty : AlertType) (v : ℚ)
    (s : AlertState) (t : ℤ) (h1 : s.lastTriggeredAt = some t)
    (h2 : now - t < ALERT_DEBOUNCE_MS) :
    triggerAlert now w ty v s = (s, none) := by
  unfold triggerAlert
  rw [h1]
  simp [h2]

theorem C5_witness :
    (1000 : ℤ) - 0 < ALERT_DEBOUNCE_MS ∧
    triggerAlert 1000 true AlertType.TEMP_HIGH 37
      { isActive := false, lastTriggeredAt := some 0, lastClearedAt := none,
        lastValue := some 33 } =
      ({ isActive := false, lastTriggeredAt := some 0, lastClearedAt := none,
         lastValue := some 33 }, none) :=
  ⟨by decide,
   C5_debounced_trigger_is_noop 1000 true AlertType.TEMP_HIGH 37 _ 0 rfl (by decide)⟩

/-- C7: with no ThresholdConfig cached and the single reload attempt coming
back empty, handleTelemetryInsert is a complete no-op: the engine state
(alert states, weight tracker, cached config) is returned unchanged and no
transition is produced.  The reload outcome is consulted exactly once per
call (the `reload` argument); because the returned state still has
`thresholds = none`, the next call consults its own reload again. -/
theorem C7_missing_config_noop (reload : Option Thresholds) (now : ℤ)
    (w : AlertType → Bool) (data : Telemetry) (es : EngineState)
    (h1 : es.thresholds = none) (h2 : reload = none) :
    handleTelemetryInsert reload now w data es = (es, []) := by
  cases es with
  | mk a t lw lt =>
      dsimp only at h1
      subst h1
      subst h2
      rfl

theorem C7_witness :
    initialEngineState.thresholds = none ∧
    handleTelemetryInsert none 0 (fun _ => true) readingFixture initialEngineState =
      (initialEngineState, []) :=
  ⟨rfl, C7_missing_config_noop none 0 (fun _ => true) readingFixture
    initialEngineState rfl rfl⟩

/-- C8: a reading whose daily honey-gain field is absent makes the
HONEY_GAIN_LOW check return immediately: no transition of either direction
and the whole alert-state table unchanged, whatever the threshold and the
current activity of the alert. -/
theorem C8_honey_gain_absent_noop (th : Thresholds) (now : ℤ) (w : AlertType → Bool)
    (data : Telemetry) (states : AlertType → AlertState)
    (h : data.dailyHoneyGainG = none) :
    checkHoneyGainAlerts th now w data states = (states, []) := by
  unfold checkHoneyGainAlerts
  rw [h]

theorem C8_witness :
    readingFixture.dailyHoneyGainG = none ∧
    checkHoneyGainAlerts thFixture 0 (fun _ => true) readingFixture
      (fun _ => freshAlertState) = (fun _ => freshAlertState, []) :=
  ⟨rfl, C8_honey_gain_absent_noop thFixture 0 (fun _ => true) readingFixture
    (fun _ => freshAlertState) rfl⟩

/-- C9: a failing audit-log write does not roll back the in-memory flip and
does not escape: with writeOk = false a non-debounced trigger still returns
the state with isActive = true, lastTriggeredAt = now and lastValue = value
(lastClearedAt untouched), and a non-debounced clear of an active state
still returns isActive = false, lastClearedAt = now, lastValue = value; in
both cases the produced transition records the failed write (logged =
false) and the functions return normally (the catch block only logs). -/
theorem C9_write_failure_keeps_state_flip (now : ℤ) (ty : AlertType) (v : ℚ)
    (s : AlertState) :
    ((∀ t, s.lastTriggeredAt = some t → ALERT_DEBOUNCE_MS ≤ now - t) →
      triggerAlert now false ty v s =
        ({ s with isActive := true, lastTriggeredAt := some now, lastValue := some v },
         some { type := ty, direction := Direction.TRIGGERED, value := v, timestamp := now,
                logged := false, published := false })) ∧
    (s.isActive = true →
      (∀ t, s.lastClearedAt = some t → ALERT_DEBOUNCE_MS ≤ now - t) →
      clearAlert now false ty v s =
        ({ s with isActive := false, lastClearedAt := some now, lastValue := some v },
         some { type := ty, direction := Direction.CLEARED, value := v, timestamp := now,
                logged := false, published := false })) := by
  constructor
  · intro h
    unfold triggerAlert
    cases hlt : s.lastTriggeredAt with
    | none => rfl
    | some t =>
        dsimp only
        rw [if_neg (not_lt.mpr (h t hlt))]
        rfl
  · intro ha h
    unfold clearAlert
    rw [ha]
    simp only [Bool.true_eq_false, if_false]
    cases hlc : s.lastClearedAt with
    | none => rfl
    | some t =>
        dsimp only
        rw [if_neg (not_lt.mpr (h t hlc))]
        rfl

theorem C9_witness :
    triggerAlert 7 false AlertType.CO2_HIGH 5000 freshAlertState =
      ({ isActive := true, lastTriggeredAt := some 7, lastClearedAt := none,
         lastValue := some 5000 },
       some { type := AlertType.CO2_HIGH, direction := Direction.TRIGGERED, value := 5000,
              timestamp := 7, logged := false, published := false }) ∧
    clearAlert 7 false AlertType.CO2_HIGH 100
      { isActive := true, lastTriggeredAt := some 0, lastClearedAt := none,
        lastValue := some 5000 } =
      ({ isActive := false, lastTriggeredAt := some 0, lastClearedAt := some 7,
         lastValue := some 100 },
       some { type := AlertType.CO2_HIGH, direction := Direction.CLEARED, value := 100,
              timestamp := 7, logged := false, published := false }) :=
  ⟨(C9_write_failure_keeps_state_flip 7 AlertType.CO2_HIGH 5000 freshAlertState).1
      (fun t ht => by cases ht),
   (C9_write_failure_keeps_state_flip 7 AlertType.CO2_HIGH 100
      { isActive := true, lastTriggeredAt := some 0, lastClearedAt := none,
        lastValue := some 5000 }).2 rfl (fun t ht => by cases ht)⟩

/-- C1 counterexample: a trigger transition whose audit write fails is not
published — the emit call of the source sits inside the same try block,
textually after the awaited insert, so a throwing insert skips the emit;
the claim that the event is still emitted fails on this input. -/
theorem C1_counterexample :
    ∃ em, (triggerAlert 0 false AlertType.TEMP_HIGH 40 freshAlertState).2 = some em ∧
      em.published = false ∧ em.logged = false :=
  ⟨_, rfl, rfl, rfl⟩

/-- C1 amended: a failing audit write is caught and logged at the engine
boundary, does not abort evaluation, and leaves the in-memory flip in
place, but the publish step is not attempted independently: a produced
transition is published exactly when its audit write succeeded, for
triggers and clears alike. -/
theorem C1_publish_iff_write_succeeds (now : ℤ) (w : Bool) (ty : AlertType) (v : ℚ)
    (s : AlertState) :
    (∀ em, (triggerAlert now w ty v s).2 = some em →
        em.published = w ∧ em.logged = w) ∧
    (∀ em, (clearAlert now w ty v s).2 = some em →
        em.published = w ∧ em.logged = w) := by
  constructor
  · intro em he
    rcases triggerAlert_cases now w ty v s with h | h <;> rw [h] at he
    · cases he
    · unfold triggerCommit at he
      simp only [Option.some.injEq] at he
      rw [← he]
      exact ⟨rfl, rfl⟩
  · intro em he
    rcases clearAlert_cases now w ty v s with h | ⟨ha, h⟩ <;> rw [h] at he
    · cases he
    · unfold clearCommit at he
      simp only [Option.some.injEq] at he
      rw [← he]
      exact ⟨rfl, rfl⟩

theorem C1_witness :
    (triggerAlert 0 true AlertType.TEMP_HIGH 40 freshAlertState).2 =
      some { type := AlertType.TEMP_HIGH, direction := Direction.TRIGGERED, value := 40,
             timestamp := 0, logged := true, published := true } ∧
    ({ type := AlertType.TEMP_HIGH, direction := Direction.TRIGGERED, value := (40 : ℚ),
       timestamp := (0 : ℤ), logged := true, published := true } : Emission).published = true :=
  ⟨rfl,
   ((C1_publish_iff_write_succeeds 0 true AlertType.TEMP_HIGH 40 freshAlertState).1
      _ rfl).1⟩

/-- C2 counterexample: a TRIGGERED transition for TEMP_HIGH accepted at
time 0 from the fresh state, and a CLEARED transition of the same kind
accepted only 1000 ms later — far less than the 300000 ms debounce window —
because the source debounces triggers only against lastTriggeredAt and
clears only against lastClearedAt. -/
theorem C2_counterexample :
    ∃ em1 em2,
      (triggerAlert 0 true AlertType.TEMP_HIGH 40 freshAlertState).2 = some em1 ∧
      (clearAlert 1000 true AlertType.TEMP_HIGH 32
        (triggerAlert 0 true AlertType.TEMP_HIGH 40 freshAlertState).1).2 = some em2 ∧
      em1.type = AlertType.TEMP_HIGH ∧ em2.type = AlertType.TEMP_HIGH ∧
      em1.direction = Direction.TRIGGERED ∧ em2.direction = Direction.CLEARED ∧
      em2.timestamp - em1.timestamp < ALERT_DEBOUNCE_MS :=
  ⟨_, _, rfl, rfl, rfl, rfl, rfl, rfl, by decide⟩

/-- C2 amended: the debounce window gates transitions per direction, not
per kind: a trigger is accepted exactly when at least 300000 ms have
elapsed since lastTriggeredAt (if any), and a clear exactly when the state
is active and at least 300000 ms have elapsed since lastClearedAt (if
any); a trigger and a subsequent clear of the same kind are not mutually
gated. -/
theorem C2_debounce_is_per_direction (now : ℤ) (w : Bool) (ty : AlertType) (v : ℚ)
    (s : AlertState) :
    ((triggerAlert now w ty v s).2.isSome = true ↔
        ∀ t, s.lastTriggeredAt = some t → ALERT_DEBOUNCE_MS ≤ now - t) ∧
    ((clearAlert now w ty v s).2.isSome = true ↔
        s.isActive = true ∧ ∀ t, s.lastClearedAt = some t → ALERT_DEBOUNCE_MS ≤ now - t) := by
  constructor
  · unfold triggerAlert
    cases hlt : s.lastTriggeredAt with
    | none =>
        simp only [triggerCommit]
        constructor
        · intro _ t ht
          cases ht
        · intro _
          rfl
    | some t =>
        dsimp only
        by_cases hd : now - t < ALERT_DEBOUNCE_MS
        · rw [if_pos hd]
          constructor
          · intro hfalse
            cases hfalse
          · intro hall
            exact absurd (hall t rfl) (not_le.mpr hd)
        · rw [if_neg hd]
          simp only [triggerCommit]
          constructor
          · intro _ t2 ht2
            cases ht2
            exact not_lt.mp hd
          · intro _
            rfl
  · unfold clearAlert
    by_cases ha : s.isActive = false
    · rw [if_pos ha]
      constructor
      · intro hfalse
        cases hfalse
      · intro hand
        rw [hand.1] at ha
        cases ha
    · rw [if_neg ha]
      have ha' : s.isActive = true := by
        cases hb : s.isActive
        · exact absurd hb ha
        · rfl
      cases hlc : s.lastClearedAt with
      | none =>
          simp only [clearCommit]
          constructor
          · intro _
            refine ⟨ha', ?_⟩
            intro t ht
            cases ht
          · intro _
            rfl
      | some t =>
          dsimp only
          by_cases hd : now - t < ALERT_DEBOUNCE_MS
          · rw [if_pos hd]
            constructor
            · intro hfalse
              cases hfalse
            · intro hand
              exact absurd (hand.2 t rfl) (not_le.mpr hd)
          · rw [if_neg hd]
            simp only [clearCommit]
            constructor
            · intro _
              refine ⟨ha', ?_⟩
              intro t2 ht2
              cases ht2
              exact not_lt.mp hd
            · intro _
              rfl

theorem C2_witness :
    (clearAlert 1000 true AlertType.TEMP_HIGH 32
      { isActive := true, lastTriggeredAt := some 0, lastClearedAt := none,
        lastValue := some 40 }).2.isSome = true :=
  ((C2_debounce_is_per_direction 1000 true AlertType.TEMP_HIGH 32
    { isActive := true, lastTriggeredAt := some 0, lastClearedAt := none,
      lastValue := some 40 }).2).mpr ⟨rfl, fun t ht => by cases ht⟩

/-- C6: whenever a reading is evaluated with a configuration available
(already cached, or obtained by this call's reload), the weight tracker's
previous-weight and previous-time slots are overwritten with the reading's
weight and timestamp — independently of whether the weight-drop check
evaluated or produced a transition. -/
theorem C6_weight_tracker_always_overwritten (reload : Option Thresholds) (now : ℤ)
    (w : AlertType → Bool) (data : Telemetry) (es : EngineState)
    (h : (es.thresholds.or reload).isSome = true) :
    (handleTelemetryInsert reload now w data es).1.lastWeight = some data.weightKg ∧
    (handleTelemetryInsert reload now w data es).1.lastWeightTime = some data.recordedAt := by
  unfold handleTelemetryInsert
  cases hth : es.thresholds with
  | some th =>
      simp only [hth]
      exact ⟨rfl, rfl⟩
  | none =>
      rw [hth] at h
      simp only [hth]
      cases hr : reload with
      | none =>
          rw [hr] at h
          cases h
      | some th =>
          simp only [hr]
          exact ⟨rfl, rfl⟩

theorem C6_witness :
    ((initialEngineState.thresholds.or (some thFixture)).isSome = true) ∧
    (handleTelemetryInsert (some thFixture) 0 (fun _ => true) readingFixture
        initialEngineState).1.lastWeight = some readingFixture.weightKg ∧
    (handleTelemetryInsert (some thFixture) 0 (fun _ => true) readingFixture
        initialEngineState).1.lastWeightTime = some readingFixture.recordedAt :=
  ⟨rfl, C6_weight_tracker_always_overwritten (some thFixture) 0 (fun _ => true)
    readingFixture initialEngineState rfl⟩

lemma checkWeightAlerts_clears (th : Thresholds) (now : ℤ) (w : AlertType → Bool)
    (data : Telemetry) (states : AlertType → AlertState) (lw : ℚ) (lt : ℤ)
    (ha : (states AlertType.WEIGHT_DROP).isActive = true)
    (hdb : (states AlertType.WEIGHT_DROP).lastClearedAt = none)
    (hcond : 0 < ((data.recordedAt - lt : ℤ) : ℚ) / (1000 * 60 * 60) ∧
      ((data.recordedAt - lt : ℤ) : ℚ) / (1000 * 60 * 60) ≤ 1 ∧
      0 < lw - data.weightKg) :
    (checkWeightAlerts th now w data states (some lw) (some lt)).1.2 =
      if (lw - data.weightKg) / (((data.recordedAt - lt : ℤ) : ℚ) / (1000 * 60 * 60)) ≤
          th.maxWeightDropPerHourKg * (1 - ALERT_HYSTERESIS_PERCENT)
      then [{ type := AlertType.WEIGHT_DROP, direction := Direction.CLEARED,
              value := (lw - data.weightKg) /
                (((data.recordedAt - lt : ℤ) : ℚ) / (1000 * 60 * 60)),
              timestamp := now, logged := w AlertType.WEIGHT_DROP,
              published := w AlertType.WEIGHT_DROP }]
      else [] := by
  unfold checkWeightAlerts
  dsimp only
  rw [if_pos hcond]
  unfold evalBranch
  rw [if_neg (fun hand => by rw [ha] at hand; cases hand.2)]
  by_cases hcl : (lw - data.weightKg) / (((data.recordedAt - lt : ℤ) : ℚ) / (1000 * 60 * 60)) ≤
      th.maxWeightDropPerHourKg * (1 - ALERT_HYSTERESIS_PERCENT)
  · rw [if_pos ⟨hcl, ha⟩, if_pos hcl]
    unfold clearAlert
    rw [if_neg (by rw [ha]; exact fun hf => by cases hf)]
    rw [hdb]
    rfl
  · rw [if_neg (fun hand => hcl hand.1), if_neg hcl]
    rfl

/-- Alert-state table with only WEIGHT_DROP active and no clear history,
used by the C3 concrete runs. -/
def c3States : AlertType → AlertState :=
  Function.update (fun _ => freshAlertState) AlertType.WEIGHT_DROP
    { freshAlertState with isActive := true }

/-- Reading one hour after a tracked weight of 10 kg whose drop rate is
exactly the WEIGHT_DROP clear threshold 0.95 kg/hour. -/
def c3Reading : Telemetry :=
  { readingFixture with weightKg := 181/20, recordedAt := 3600000 }

/-- C3 counterexample: with the WEIGHT_DROP alert active and a computed
drop rate exactly equal to maxWeightDropPerHourKg × (1 − 0.05), the source
emits a CLEARED transition (its clear comparison is `dropPerHour <=
clearThreshold`), contradicting the claim that the alert stays active at a
rate exactly equal to the clear threshold. -/
theorem C3_counterexample :
    (c3States AlertType.WEIGHT_DROP).isActive = true ∧
    ∃ em, (checkWeightAlerts thFixture 3600000 (fun _ => true) c3Reading c3States
        (some 10) (some 0)).1.2 = [em] ∧ em.direction = Direction.CLEARED ∧
      em.value = thFixture.maxWeightDropPerHourKg * (1 - ALERT_HYSTERESIS_PERCENT) := by
  refine ⟨rfl, ?_⟩
  have h := checkWeightAlerts_clears thFixture 3600000 (fun _ => true) c3Reading c3States
    10 0 rfl rfl (by norm_num [c3Reading, readingFixture])
  rw [if_pos (by norm_num [c3Reading, readingFixture, thFixture,
    ALERT_HYSTERESIS_PERCENT])] at h
  refine ⟨_, h, rfl, ?_⟩
  norm_num [c3Reading, readingFixture, thFixture, ALERT_HYSTERESIS_PERCENT]

/-- C3 amended: the WEIGHT_DROP clear comparison is non-strict: with the
alert active, its clear not debounced, and a consecutive-reading drop rate
computed (0 < Δt ≤ 1 h, weight decreased), a CLEARED transition is produced
exactly when the rate is less than or equal to maxWeightDropPerHourKg ×
(1 − 0.05); in particular a rate exactly equal to the clear threshold
clears the alert instead of leaving it active. -/
theorem C3_weight_drop_clear_is_nonstrict (th : Thresholds) (now : ℤ)
    (w : AlertType → Bool) (data : Telemetry) (states : AlertType → AlertState)
    (lw : ℚ) (lt : ℤ)
    (ha : (states AlertType.WEIGHT_DROP).isActive = true)
    (hdb : (states AlertType.WEIGHT_DROP).lastClearedAt = none)
    (hcond : 0 < ((data.recordedAt - lt : ℤ) : ℚ) / (1000 * 60 * 60) ∧
      ((data.recordedAt - lt : ℤ) : ℚ) / (1000 * 60 * 60) ≤ 1 ∧
      0 < lw - data.weightKg) :
    (∃ em ∈ (checkWeightAlerts th now w data states (some lw) (some lt)).1.2,
        em.direction = Direction.CLEARED) ↔
      (lw - data.weightKg) / (((data.recordedAt - lt : ℤ) : ℚ) / (1000 * 60 * 60)) ≤
        th.maxWeightDropPerHourKg * (1 - ALERT_HYSTERESIS_PERCENT) := by
  rw [checkWeightAlerts_clears th now w data states lw lt ha hdb hcond]
  by_cases hcl : (lw - data.weightKg) /
      (((data.recordedAt - lt : ℤ) : ℚ) / (1000 * 60 * 60)) ≤
      th.maxWeightDropPerHourKg * (1 - ALERT_HYSTERESIS_PERCENT)
  · rw [if_pos hcl]
    constructor
    · intro _
      exact hcl
    · intro _
      exact ⟨_, List.mem_singleton_self _, rfl⟩
  · rw [if_neg hcl]
    constructor
    · rintro ⟨em, hm, _⟩
      exact absurd hm (List.not_mem_nil em)
    · intro hc
      exact absurd hc hcl

theorem C3_witness :
    ∃ em ∈ (checkWeightAlerts thFixture 3600000 (fun _ => true)
        { readingFixture with weightKg := 19/2, recordedAt := 3600000 } c3States
        (some 10) (some 0)).1.2, em.direction = Direction.CLEARED :=
  (C3_weight_drop_clear_is_nonstrict thFixture 3600000 (fun _ => true)
    { readingFixture with weightKg := 19/2, recordedAt := 3600000 } c3States 10 0
    rfl rfl (by norm_num [readingFixture])).mpr
    (by norm_num [readingFixture, thFixture, ALERT_HYSTERESIS_PERCENT])

lemma checkTemperatureAlerts_high_state (th : Thresholds) (now : ℤ)
    (w : AlertType → Bool) (data : Telemetry) (states : AlertType → AlertState) :
    (checkTemperatureAlerts th now w data states).1 AlertType.TEMP_HIGH =
      (evalBranch (th.tempMax < data.temperature)
        (data.temperature < th.tempMax * (1 - ALERT_HYSTERESIS_PERCENT))
        now (w AlertType.TEMP_HIGH) AlertType.TEMP_HIGH data.temperature
        (states AlertType.TEMP_HIGH)).1 := by
  unfold checkTemperatureAlerts
  dsimp only
  rw [Function.update_noteq (by decide), Function.update_same]

lemma checkTemperatureAlerts_high_emissions (th : Thresholds) (now : ℤ)
    (w : AlertType → Bool) (data : Telemetry) (states : AlertType → AlertState) :
    kindEmissions AlertType.TEMP_HIGH (checkTemperatureAlerts th now w data states).2 =
      (evalBranch (th.tempMax < data.temperature)
        (data.temperature < th.tempMax * (1 - ALERT_HYSTERESIS_PERCENT))
        now (w AlertType.TEMP_HIGH) AlertType.TEMP_HIGH data.temperature
        (states AlertType.TEMP_HIGH)).2.toList := by
  unfold checkTemperatureAlerts
  dsimp only
  rw [kindEmissions_append,
    kindEmissions_eq_self (evalBranch_type _ _ _ _ _ _ _),
    kindEmissions_eq_nil (fun e he => by
      rw [evalBranch_type _ _ now (w AlertType.TEMP_LOW) AlertType.TEMP_LOW
        data.temperature (states AlertType.TEMP_LOW) e he]
      decide),
    List.append_nil]

/-- C4: bad-above hysteresis dead band for TEMP_HIGH with threshold 36:
from the fresh (inactive, no history) table a reading of 36.1 produces a
TRIGGERED transition and activates the kind; from the resulting state, a
reading anywhere in the band 34.2 ≤ v ≤ 36.1 produces no TEMP_HIGH
transition and leaves the kind active, while any reading strictly below
34.2 = 36 × 0.95 produces a CLEARED transition. -/
theorem C4_temp_high_hysteresis_band (th : Thresholds) (now1 now2 : ℤ)
    (w1 w2 : AlertType → Bool) (data1 data2 : Telemetry) (v : ℚ)
    (hmax : th.tempMax = 36) (h1 : data1.temperature = 361/10)
    (h2 : data2.temperature = v) :
    (∃ e1, kindEmissions AlertType.TEMP_HIGH
        (checkTemperatureAlerts th now1 w1 data1 (fun _ => freshAlertState)).2 = [e1] ∧
        e1.direction = Direction.TRIGGERED) ∧
    ((checkTemperatureAlerts th now1 w1 data1 (fun _ => freshAlertState)).1
        AlertType.TEMP_HIGH).isActive = true ∧
    (342/10 ≤ v → v ≤ 361/10 →
      kindEmissions AlertType.TEMP_HIGH
        (checkTemperatureAlerts th now2 w2 data2
          (checkTemperatureAlerts th now1 w1 data1 (fun _ => freshAlertState)).1).2 = [] ∧
      ((checkTemperatureAlerts th now2 w2 data2
          (checkTemperatureAlerts th now1 w1 data1 (fun _ => freshAlertState)).1).1
          AlertType.TEMP_HIGH).isActive = true) ∧
    (v < 342/10 →
      ∃ e2, kindEmissions AlertType.TEMP_HIGH
        (checkTemperatureAlerts th now2 w2 data2
          (checkTemperatureAlerts th now1 w1 data1 (fun _ => freshAlertState)).1).2 = [e2] ∧
        e2.direction = Direction.CLEARED) := by
  have htrig : th.tempMax < data1.temperature := by
    rw [hmax, h1]
    norm_num
  have hs1 : (checkTemperatureAlerts th now1 w1 data1 (fun _ => freshAlertState)).1
      AlertType.TEMP_HIGH =
      { isActive := true, lastTriggeredAt := some now1, lastClearedAt := none,
        lastValue := some data1.temperature } := by
    rw [checkTemperatureAlerts_high_state]
    unfold evalBranch
    rw [if_pos ⟨htrig, rfl⟩]
    rfl
  have hem1 : kindEmissions AlertType.TEMP_HIGH
      (checkTemperatureAlerts th now1 w1 data1 (fun _ => freshAlertState)).2 =
      [{ type := AlertType.TEMP_HIGH, direction := Direction.TRIGGERED,
         value := data1.temperature, timestamp := now1,
         logged := w1 AlertType.TEMP_HIGH, published := w1 AlertType.TEMP_HIGH }] := by
    rw [checkTemperatureAlerts_high_emissions]
    unfold evalBranch
    rw [if_pos ⟨htrig, rfl⟩]
    rfl
  have hnotrig : ¬ (th.tempMax < data2.temperature ∧
      ((checkTemperatureAlerts th now1 w1 data1 (fun _ => freshAlertState)).1
        AlertType.TEMP_HIGH).isActive = false) := by
    rw [hs1]
    rintro ⟨-, hfa⟩
    cases hfa
  refine ⟨⟨_, hem1, rfl⟩, by rw [hs1], ?_, ?_⟩
  · intro hlo hhi
    have hnoclear : ¬ (data2.temperature < th.tempMax * (1 - ALERT_HYSTERESIS_PERCENT) ∧
        ((checkTemperatureAlerts th now1 w1 data1 (fun _ => freshAlertState)).1
          AlertType.TEMP_HIGH).isActive = true) := by
      rintro ⟨hlt, -⟩
      rw [h2, hmax] at hlt
      have h342 : (36 : ℚ) * (1 - ALERT_HYSTERESIS_PERCENT) = 342/10 := by
        norm_num [ALERT_HYSTERESIS_PERCENT]
      rw [h342] at hlt
      exact absurd hlo (not_le.mpr hlt)
    constructor
    · rw [checkTemperatureAlerts_high_emissions]
      unfold evalBranch
      rw [if_neg hnotrig, if_neg hnoclear]
      rfl
    · rw [checkTemperatureAlerts_high_state]
      unfold evalBranch
      rw [if_neg hnotrig, if_neg hnoclear]
      rw [hs1]
  · intro hlt
    have hclear : data2.temperature < th.tempMax * (1 - ALERT_HYSTERESIS_PERCENT) := by
      rw [h2, hmax]
      have h342 : (36 : ℚ) * (1 - ALERT_HYSTERESIS_PERCENT) = 342/10 := by
        norm_num [ALERT_HYSTERESIS_PERCENT]
      rw [h342]
      exact hlt
    refine ⟨{ type := AlertType.TEMP_HIGH, direction := Direction.CLEARED,
              value := data2.temperature, timestamp := now2,
              logged := w2 AlertType.TEMP_HIGH,
              published := w2 AlertType.TEMP_HIGH }, ?_, rfl⟩
    rw [checkTemperatureAlerts_high_emissions]
    unfold evalBranch
    rw [if_neg hnotrig, if_pos ⟨hclear, by rw [hs1]⟩, hs1]
    rfl

theorem C4_witness :
    (∃ e1, kindEmissions AlertType.TEMP_HIGH
        (checkTemperatureAlerts thFixture 0 (fun _ => true)
          { readingFixture with temperature := 361/10 }
          (fun _ => freshAlertState)).2 = [e1] ∧
        e1.direction = Direction.TRIGGERED) ∧
    kindEmissions AlertType.TEMP_HIGH
      (checkTemperatureAlerts thFixture 60000 (fun _ => true)
        { readingFixture with temperature := 35 }
        (checkTemperatureAlerts thFixture 0 (fun _ => true)
          { readingFixture with temperature := 361/10 }
          (fun _ => freshAlertState)).1).2 = [] := by
  have h := C4_temp_high_hysteresis_band thFixture 0 60000 (fun _ => true) (fun _ => true)
    { readingFixture with temperature := 361/10 }
    { readingFixture with temperature := 35 } 35 rfl rfl rfl
  exact ⟨h.1, (h.2.2.1 (by norm_num) (by norm_num)).1⟩
